import Mathlib

set_option maxHeartbeats 1000000

/-!
Shallow embedding of the OpenCensus http/https instrumentation plugin
(`src/census/plugins/http.ts`) and proofs about it.

The embedding follows the TypeScript source function by function:

* `isSatisfyPattern` / `isIgnored` — the ignore-rule matcher (lines 134-167);
* `convertTraceStatus` — the HTTP-status → trace-status classifier
  (lines 463-490) together with the `TraceStatusCodes` numeric constants
  (lines 506-517);
* `outgoingRequest` — the outbound interception wrapper (lines 278-347);
* `setHeaderImpl` — the trace-context header setter built in
  `getMakeRequestTraceFunction` (lines 368-390) with `hasExpectHeader`
  (lines 496-500);
* `onResponseEnd` / `onResponseError` / `onRequestError` / `deliverSignal` —
  the terminal-event handlers armed by `getMakeRequestTraceFunction`
  (lines 397-442);
* `resolveRoute` — the `http.route` computation of the inbound handler
  (lines 236-244);
* `createSpan` / `incomingRequest` — the inbound span-opening path
  (lines 178-264 and 449-457).

JavaScript-specific semantics (truthiness of strings, `||` defaulting,
template interpolation of absent values, first-character indexing) are
modelled by the small `js*` helpers below.  The external tracer, which the
plugin only calls, is modelled by the `Tracer` state (current root span and
the trace id a fresh root would receive): `startChildSpan` yields a span
carrying the current root's trace id, `startRootSpan` a fresh one, matching
the tracer interface the spec assumes (child spans share the root's trace
identity).  Logging, `wrapEmitter` and the message-event payloads carry no
decision-relevant data and are reduced to counters where a claim mentions
them.
-/

/-- JavaScript `a || b` where `a` is a possibly absent string: an absent or
empty string is falsy, so the default `b` is taken (e.g.
`options.method || 'GET'`, line 308). -/
def jsOr (a : Option String) (b : String) : String :=
  match a with
  | none => b
  | some s => if s = "" then b else s

/-- JavaScript `a || b` on two present strings (`method || 'GET'`, line 326). -/
def jsOrS (a b : String) : String :=
  if a = "" then b else a

/-- JavaScript template interpolation `${x}` of a possibly absent string:
an absent value renders as the literal text `undefined`. -/
def jsTemplate : Option String → String
  | none => "undefined"
  | some s => s

/-- JavaScript truthiness of a possibly absent string value: present and
non-empty. -/
def jsTruthy : Option String → Bool
  | none => false
  | some s => s != ""

/-- JavaScript `a || b` on two possibly absent strings, returning the value
the expression evaluates to (`headers[a] || headers[b]`, line 406). -/
def jsOrOpt (a b : Option String) : Option String :=
  if jsTruthy a then a else b

/-- JavaScript `String.prototype.toLowerCase` on one character (the strings
the plugin lowercases — `'HTTP'`/`'HTTPS'` and HTTP method names — are
ASCII): shift an upper-case letter down by 32 code points. -/
def jsCharToLower (c : Char) : Char :=
  if 'A' ≤ c ∧ c ≤ 'Z' then Char.ofNat (c.toNat + 32) else c

/-- JavaScript `s.toLowerCase()` character by character. -/
def jsToLowerCase (s : String) : String :=
  ⟨s.data.map jsCharToLower⟩

/-- The JavaScript `TypeError` thrown by `isSatisfyPattern` (line 165). -/
structure JsTypeError where
  message : String
deriving DecidableEq, Repr

/-- `IgnoreMatcher<T>` (line 25): a configured ignore rule.  At runtime a
rule is a string, a `RegExp`, a predicate function, or — since JavaScript
does not enforce the static type — any other value, which `isSatisfyPattern`
rejects.  A `RegExp` is modelled by its `test` function on the url. -/
inductive Pattern (T : Type) where
  | str (s : String)
  | regexp (test : String → Bool)
  | func (f : String → T → Bool)
  | other

/-- `isSatisfyPattern` (lines 156-167): dispatch on the runtime shape of the
rule; a string rule compares `pattern === url`, a regexp rule runs
`pattern.test(url)`, a function rule runs `pattern(url, request)`, anything
else throws a `TypeError`. -/
def isSatisfyPattern {T : Type} (url : String) (request : T) :
    Pattern T → Except JsTypeError Bool
  | .str s => .ok (s == url)
  | .regexp t => .ok (t url)
  | .func f => .ok (f url request)
  | .other => .error ⟨"Pattern is in unsupported datatype"⟩

/-- The `for`-loop body of `isIgnored` (lines 141-147), instrumented with the
number of `isSatisfyPattern` evaluations actually performed, so that the
short-circuit behaviour (return `true` on the first match) is visible. -/
def isIgnoredLoop {T : Type} (url : String) (request : T) :
    List (Pattern T) → Except JsTypeError (Bool × Nat)
  | [] => .ok (false, 0)
  | p :: rest =>
    match isSatisfyPattern url request p with
    | .error e => .error e
    | .ok true => .ok (true, 1)
    | .ok false =>
      match isIgnoredLoop url request rest with
      | .error e => .error e
      | .ok (b, n) => .ok (b, n + 1)

/-- `isIgnored` (lines 134-148): `false` when the list is absent
(`if (!list) return false`); otherwise the first-match loop.  A thrown
`TypeError` propagates to the caller. -/
def isIgnored {T : Type} (url : String) (request : T) :
    Option (List (Pattern T)) → Except JsTypeError Bool
  | none => .ok false
  | some list =>
    match isIgnoredLoop url request list with
    | .error e => .error e
    | .ok (b, _) => .ok b

namespace TraceStatusCodes

/-- `TraceStatusCodes.UNKNOWN` (line 507). -/
def UNKNOWN : Int := 2

/-- `TraceStatusCodes.OK` (line 508). -/
def OK : Int := 0

/-- `TraceStatusCodes.INVALID_ARGUMENT` (line 509). -/
def INVALID_ARGUMENT : Int := 3

/-- `TraceStatusCodes.DEADLINE_EXCEEDED` (line 510). -/
def DEADLINE_EXCEEDED : Int := 4

/-- `TraceStatusCodes.NOT_FOUND` (line 511). -/
def NOT_FOUND : Int := 5

/-- `TraceStatusCodes.PERMISSION_DENIED` (line 512). -/
def PERMISSION_DENIED : Int := 7

/-- `TraceStatusCodes.UNAUTHENTICATED` (line 513). -/
def UNAUTHENTICATED : Int := 16

/-- `TraceStatusCodes.RESOURCE_EXHAUSTED` (line 514). -/
def RESOURCE_EXHAUSTED : Int := 8

/-- `TraceStatusCodes.UNIMPLEMENTED` (line 515). -/
def UNIMPLEMENTED : Int := 12

/-- `TraceStatusCodes.UNAVAILABLE` (line 516). -/
def UNAVAILABLE : Int := 14

end TraceStatusCodes

/-- `HttpPlugin.convertTraceStatus` (lines 463-490): the guard
`statusCode < 200 || statusCode > 504`, the success band
`statusCode >= 200 && statusCode < 400`, then the `switch` in its source
order (400, 504, 404, 403, 401, 429, 501, 503, default). -/
def convertTraceStatus (statusCode : Int) : Int :=
  if statusCode < 200 ∨ statusCode > 504 then
    TraceStatusCodes.UNKNOWN
  else if 200 ≤ statusCode ∧ statusCode < 400 then
    TraceStatusCodes.OK
  else if statusCode = 400 then TraceStatusCodes.INVALID_ARGUMENT
  else if statusCode = 504 then TraceStatusCodes.DEADLINE_EXCEEDED
  else if statusCode = 404 then TraceStatusCodes.NOT_FOUND
  else if statusCode = 403 then TraceStatusCodes.PERMISSION_DENIED
  else if statusCode = 401 then TraceStatusCodes.UNAUTHENTICATED
  else if statusCode = 429 then TraceStatusCodes.RESOURCE_EXHAUSTED
  else if statusCode = 501 then TraceStatusCodes.UNIMPLEMENTED
  else if statusCode = 503 then TraceStatusCodes.UNAVAILABLE
  else TraceStatusCodes.UNKNOWN

/-- The span kinds the plugin uses (`SpanKind.CLIENT` for outbound,
`SpanKind.SERVER` for inbound). -/
inductive SpanKind where
  | CLIENT
  | SERVER
deriving DecidableEq, Repr

/-- The external tracer state the plugin reads: the current root span of the
calling context (`plugin.tracer.currentRootSpan`, identified by its trace
id) and the trace id a newly started root span would receive. -/
structure Tracer where
  currentRootSpan : Option Nat
  freshTraceId : Nat
deriving DecidableEq, Repr

/-- The one span a traced operation starts: whether it was opened with
`startRootSpan` (`isRoot = true`) or `startChildSpan`, its name, kind and
the trace id the external tracer assigns (a fresh id for a root; the
current root's id for a child, absent if no root is active). -/
structure SpanStart where
  isRoot : Bool
  name : String
  kind : SpanKind
  traceId : Option Nat
deriving DecidableEq, Repr

/-- The fields of a non-string `options` argument that `outgoingRequest`
reads.  `headers` is the header map (read outside the `try` block, line
296).  The url fields are modelled as fallible getters (`Except Unit _`)
because the `try`/`catch` of lines 303-312 guards exactly these reads;
`none` stands for a field that is absent (`undefined`). -/
structure ReqObj where
  headers : Option (List (String × String))
  pathname : Except Unit (Option String)
  path : Except Unit (Option String)
  method : Except Unit (Option String)
  protocol : Except Unit (Option String)
  host : Except Unit (Option String)

/-- The `options` argument of the patched `request` function: a url string
or a request-options object. -/
inductive OptionsVal where
  | str (s : String)
  | obj (o : ReqObj)

/-- What the Node `url.parse` collaborator returns for a url string; the
plugin only reads these fields. -/
structure ParsedUrl where
  protocol : Option String
  host : Option String
  pathname : Option String
  path : Option String

/-- JavaScript falsiness of the `options` argument (`if (!options)`,
line 281): absent, or the empty string. -/
def jsFalsyOptions : Option OptionsVal → Bool
  | none => true
  | some (.str s) => s == ""
  | some (.obj _) => false

/-- The loopback-marker test of lines 296-297:
`options.headers && options.headers['x-opencensus-outgoing-request']`,
a truthiness check on the header value. -/
def markerTruthy (headers : Option (List (String × String))) : Bool :=
  match headers with
  | none => false
  | some hs => jsTruthy (hs.lookup "x-opencensus-outgoing-request")

/-- The `try` block of lines 303-312 for a non-string `options` object:
compute `(pathname, method, origin)`; any failing field read aborts the
whole block (the `catch` branch).  Mirrors the source order:
`pathname = options.pathname || ''`; if that is empty and `options.path`
is a string, reparse it; `method = options.method || 'GET'`;
`` origin = `${options.protocol || 'http:'}//${options.host}` ``. -/
def tryComputeMeta (parse : String → ParsedUrl) (o : ReqObj) :
    Except Unit (String × String × String) := do
  let pn ← o.pathname
  let pathname := jsOr pn ""
  let pathname ←
    if pathname = "" then do
      let p ← o.path
      match p with
      | some ps => pure (jsOr (parse ps).pathname "")
      | none => pure pathname
    else
      pure pathname
  let m ← o.method
  let method := jsOr m "GET"
  let proto ← o.protocol
  let h ← o.host
  let origin := jsOr proto "http:" ++ "//" ++ jsTemplate h
  pure (pathname, method, origin)

/-- The observable effects of one run of the outbound wrapper
`outgoingRequest`: the value it returned (the underlying request object is
whatever `original` produced for the given argument), the span it started —
if any — and whether `isIgnored` (the Pattern Matcher) was invoked at all. -/
structure OutgoingEffects (ρ : Type) where
  result : ρ
  spanStarted : Option SpanStart
  matcherConsulted : Bool
deriving DecidableEq, Repr

/-- Lines 315-346 of `outgoingRequest`, entered after `(pathname, method,
origin)` have been computed: call the original request function, consult
`isIgnored` on `origin + pathname`, and if not ignored start either a root
span (no current root) or a child span, named
`` `${kind.toLowerCase()}-${(method || 'GET').toLowerCase()}` `` with
`kind = moduleName === 'https' ? 'HTTPS' : 'HTTP'` (line 277), span kind
CLIENT.  A `TypeError` thrown by `isIgnored` propagates. -/
def outgoingAfterMeta {ρ : Type} (moduleName : String)
    (ignoreOutgoingUrls : Option (List (Pattern ρ))) (tracer : Tracer)
    (request : ρ) (method pathname origin : String) :
    Except JsTypeError (OutgoingEffects ρ) :=
  match isIgnored (origin ++ pathname) request ignoreOutgoingUrls with
  | .error e => .error e
  | .ok true => .ok ⟨request, none, true⟩
  | .ok false =>
    let kindStr := if moduleName = "https" then "HTTPS" else "HTTP"
    let name := jsToLowerCase kindStr ++ "-" ++ jsToLowerCase (jsOrS method "GET")
    match tracer.currentRootSpan with
    | none =>
      .ok ⟨request, some ⟨true, name, SpanKind.CLIENT, some tracer.freshTraceId⟩, true⟩
    | some tid =>
      .ok ⟨request, some ⟨false, name, SpanKind.CLIENT, some tid⟩, true⟩

/-- `outgoingRequest` (lines 278-347).  `original` is the patched-over
request function (applied to the unmodified argument in every pass-through
branch), `parse` the `url.parse` collaborator.  The branches in source
order: falsy `options` → pass through; string `options` → parse url,
`method` stays `'GET'`; object `options` → loopback-marker check, then the
guarded meta computation, whose failure passes through untraced. -/
def outgoingRequest {ρ : Type} (moduleName : String)
    (parse : String → ParsedUrl) (ignoreOutgoingUrls : Option (List (Pattern ρ)))
    (tracer : Tracer) (original : Option OptionsVal → ρ)
    (optsArg : Option OptionsVal) : Except JsTypeError (OutgoingEffects ρ) :=
  if jsFalsyOptions optsArg then
    .ok ⟨original optsArg, none, false⟩
  else
    match optsArg with
    | none => .ok ⟨original optsArg, none, false⟩
    | some (.str s) =>
      let parsedUrl := parse s
      let pathname := jsOr parsedUrl.pathname "/"
      let origin := jsOr parsedUrl.protocol "http:" ++ "//"
          ++ jsTemplate parsedUrl.host
      outgoingAfterMeta moduleName ignoreOutgoingUrls tracer
        (original optsArg) "GET" pathname origin
    | some (.obj o) =>
      if markerTruthy o.headers then
        .ok ⟨original optsArg, none, false⟩
      else
        match tryComputeMeta parse o with
        | .error _ => .ok ⟨original optsArg, none, false⟩
        | .ok (pathname, method, origin) =>
          outgoingAfterMeta moduleName ignoreOutgoingUrls tracer
            (original optsArg) method pathname origin

/-- The view of the captured `options` object that the header setter of
`getMakeRequestTraceFunction` reads and replaces: its header map and its
`__cloned` mark (absent on a fresh object, modelled as `false`). -/
structure MutOptions where
  headers : Option (List (String × String))
  cloned : Bool
deriving DecidableEq, Repr

/-- JavaScript property assignment `m[name] = value` on a header map:
overwrite an existing entry, else append. -/
def assocSet (l : List (String × String)) (name value : String) :
    List (String × String) :=
  if (l.lookup name).isSome then
    l.map (fun kv => if kv.1 = name then (name, value) else kv)
  else
    l ++ [(name, value)]

/-- `hasExpectHeader` (lines 496-500):
`!!(options.headers && options.headers.Expect)` — the `Expect` header is
present with a truthy value. -/
def hasExpectHeader (o : MutOptions) : Bool :=
  match o.headers with
  | none => false
  | some hs => jsTruthy (hs.lookup "Expect")

/-- The mutable state the header setter acts on: the `options` binding of
the closure (reassigned to the clone on first write in the Expect case),
the headers of the live `ClientRequest` (written via
`request.setHeader`), and how many times the options object was cloned. -/
structure SetterState where
  options : MutOptions
  requestHeaders : List (String × String)
  cloneCount : Nat
deriving DecidableEq, Repr

/-- The `setHeader` closure of lines 368-389: if the options carry a truthy
`Expect` header (and a headers map), clone the options object and its
headers once (`__cloned` guard), then write the header into the clone's
map; otherwise write through `request.setHeader` on the live request. -/
def setHeaderImpl (st : SetterState) (name value : String) : SetterState :=
  if hasExpectHeader st.options && st.options.headers.isSome then
    let pair :=
      if st.options.cloned = true then
        (st.options, st.cloneCount)
      else
        (MutOptions.mk st.options.headers true, st.cloneCount + 1)
    let opts := { pair.1 with
      headers := some (assocSet (pair.1.headers.getD []) name value) }
    { st with options := opts, cloneCount := pair.2 }
  else
    { st with requestHeaders := assocSet st.requestHeaders name value }

/-- Fold `setHeaderImpl` over a sequence of header writes (the successive
`setter.setHeader` calls `propagation.inject` makes for one operation). -/
def setHeaderAll (st : SetterState) (writes : List (String × String)) :
    SetterState :=
  writes.foldl (fun s nv => setHeaderImpl s nv.1 nv.2) st

/-- The `CanonicalCode.UNKNOWN` constant of `@opencensus/core` used by the
error handlers (lines 431, 440); its numeric value is 2. -/
def CanonicalCodeUNKNOWN : Int := 2

/-- The fields of the incoming response the success handler reads
(lines 401-425). -/
structure ResMeta where
  method : Option String
  statusCode : Option Int
deriving DecidableEq, Repr

/-- A JavaScript `Error` as the error handlers read it. -/
structure ErrInfo where
  name : String
  message : String
deriving DecidableEq, Repr

/-- The fields of the captured `options` the success handler reads
(lines 404-413). -/
structure OutOpts where
  headers : Option (List (String × String))
  host : Option String
  hostname : Option String
  path : Option String
deriving DecidableEq, Repr

/-- The terminal signals an armed outbound operation can receive: the
response `end` event, a response `error` event, a request `error` event
(lines 401, 427, 436). -/
inductive Signal where
  | responseEnd (r : ResMeta)
  | responseError (e : ErrInfo)
  | requestError (e : ErrInfo)
deriving DecidableEq, Repr

/-- The observable history of one span: every `addAttribute` call in order,
every `setStatus` call in order, the number of `addMessageEvent` calls and
the number of `end()` calls. -/
structure SpanLog where
  attrs : List (String × String)
  statusSets : List Int
  msgEvents : Nat
  endCount : Nat
deriving DecidableEq, Repr

/-- `span.addAttribute(k, v)`. -/
def addAttr (s : SpanLog) (k v : String) : SpanLog :=
  { s with attrs := s.attrs ++ [(k, v)] }

/-- `span.setStatus(c)`. -/
def setStatusLog (s : SpanLog) (c : Int) : SpanLog :=
  { s with statusSets := s.statusSets ++ [c] }

/-- A span that has just been started: nothing recorded yet. -/
def initSpanLog : SpanLog :=
  ⟨[], [], 0, 0⟩

/-- JavaScript template interpolation `${x}` of a possibly absent integer
(`` `${response.statusCode}` ``, line 418). -/
def jsTemplateInt : Option Int → String
  | none => "undefined"
  | some i => toString i

/-- JavaScript `a || b` on a possibly absent integer
(`response.statusCode || 0`, line 419): absent or zero is falsy. -/
def jsOrInt (a : Option Int) (b : Int) : Int :=
  match a with
  | none => b
  | some i => if i = 0 then b else i

/-- The response `end` handler (lines 401-425): compute the effective
method (`response.method ? response.method : 'GET'`) and user agent,
conditionally record host, record method/path/route, conditionally record
user agent, record status code, classify the status, emit one message
event, end the span. -/
def onResponseEnd (options : OutOpts) (r : ResMeta) (s : SpanLog) : SpanLog :=
  let method := jsOr r.method "GET"
  let userAgent :=
    match options.headers with
    | none => none
    | some hs => jsOrOpt (hs.lookup "user-agent") (hs.lookup "User-Agent")
  let hostVal := jsOrOpt options.host options.hostname
  let s := if jsTruthy hostVal then addAttr s "http.host" (jsTemplate hostVal) else s
  let s := addAttr s "http.method" method
  let s := addAttr s "http.path" (jsTemplate options.path)
  let s := addAttr s "http.route" (jsTemplate options.path)
  let s := if jsTruthy userAgent then addAttr s "http.user_agent" (jsTemplate userAgent) else s
  let s := addAttr s "http.status_code" (jsTemplateInt r.statusCode)
  let s := setStatusLog s (convertTraceStatus (jsOrInt r.statusCode 0))
  let s := { s with msgEvents := s.msgEvents + 1 }
  { s with endCount := s.endCount + 1 }

/-- The response `error` handler (lines 427-433): record error name and
message, set status `CanonicalCode.UNKNOWN`, end the span.  It carries no
check whether the span already ended. -/
def onResponseError (e : ErrInfo) (s : SpanLog) : SpanLog :=
  let s := addAttr s "http.error_name" e.name
  let s := addAttr s "http.error_message" e.message
  let s := setStatusLog s CanonicalCodeUNKNOWN
  { s with endCount := s.endCount + 1 }

/-- The request `error` handler (lines 436-442), textually identical to the
response `error` handler. -/
def onRequestError (e : ErrInfo) (s : SpanLog) : SpanLog :=
  let s := addAttr s "http.error_name" e.name
  let s := addAttr s "http.error_message" e.message
  let s := setStatusLog s CanonicalCodeUNKNOWN
  { s with endCount := s.endCount + 1 }

/-- Dispatch one delivered terminal signal to the handler the plugin
registered for it. -/
def deliverSignal (options : OutOpts) (s : SpanLog) : Signal → SpanLog
  | .responseEnd r => onResponseEnd options r s
  | .responseError e => onResponseError e s
  | .requestError e => onRequestError e s

/-- Deliver a whole sequence of terminal signals in order. -/
def deliverAll (options : OutOpts) (s : SpanLog) (sigs : List Signal) : SpanLog :=
  sigs.foldl (deliverSignal options) s

/-- JavaScript character indexing `p[0]` (line 242): the first character,
absent (`undefined`) for the empty string. -/
def jsCharAt0 (s : String) : Option Char :=
  s.data.head?

/-- The `http.route` computation of the inbound handler (lines 236-244):
start from `` `${requestUrl.path}` ``; if the request carries a middleware
path stack, replace it by the stack's segments, dropping `'/'` segments,
prefixing each remaining segment with `'/'` unless its first character
already is `'/'`, joined with no separator. -/
def resolveRoute (rawPath : String) (middlewareStack : Option (List String)) :
    String :=
  match middlewareStack with
  | none => rawPath
  | some stack =>
    String.join ((stack.filter (fun p => p != "/")).map
      (fun p => if jsCharAt0 p = some '/' then p else "/" ++ p))

/-- Modelled from the spec (claim C9's wording, for comparison with
`resolveRoute`): "the concatenation, in list order, of the segments
different from '/', each segment prefixed with '/' if it does not already
begin with '/'". -/
def routeFromStackSpec : List String → String
  | [] => ""
  | p :: rest =>
    (if p = "/" then "" else if jsCharAt0 p = some '/' then p else "/" ++ p)
      ++ routeFromStackSpec rest

/-- The `traceOptions` record handed to `createSpan` by the inbound handler
(lines 204-208): name, kind, and the span context extracted by the
propagator (carried along; the external tracer consumes it when starting a
root span). -/
structure TraceOpts where
  name : String
  kind : SpanKind
  spanContext : Option Nat
deriving DecidableEq, Repr

/-- `createSpan` (lines 449-457): if `createSpanWithNet === true`, start a
child span with the given name and kind (the span context is dropped, as
`startChildSpan` takes none); otherwise start a root span. -/
def createSpan (createSpanWithNet : Bool) (tracer : Tracer)
    (options : TraceOpts) : SpanStart :=
  if createSpanWithNet = true then
    ⟨false, options.name, options.kind, tracer.currentRootSpan⟩
  else
    ⟨true, options.name, options.kind, some tracer.freshTraceId⟩

/-- The span-opening skeleton of `incomingRequest` (lines 178-211): only
`request` events are traced; the parsed pathname runs through `isIgnored`
against `ignoreIncomingPaths` (a thrown `TypeError` propagates); a
non-ignored request opens a span through `createSpan` with the path as
name, kind SERVER, and the propagation-extracted context.  `path` is the
already-parsed `url.parse(request.url).pathname` and `ctx` the result of
`propagation.extract`. -/
def incomingRequest {T : Type} (createSpanWithNet : Bool) (tracer : Tracer)
    (ignoreIncomingPaths : Option (List (Pattern T))) (event : String)
    (path : String) (request : T) (ctx : Option Nat) :
    Except JsTypeError (Option SpanStart) :=
  if event != "request" then
    .ok none
  else
    match isIgnored path request ignoreIncomingPaths with
    | .error e => .error e
    | .ok true => .ok none
    | .ok false =>
      .ok (some (createSpan createSpanWithNet tracer ⟨path, SpanKind.SERVER, ctx⟩))

/-! ## Helper lemmas -/

theorem isSatisfyPattern_recognized {T : Type} (u : String) (r : T)
    (p : Pattern T) (h : p ≠ Pattern.other) :
    ∃ b, isSatisfyPattern u r p = .ok b := by
  cases p with
  | str s => exact ⟨_, rfl⟩
  | regexp t => exact ⟨_, rfl⟩
  | func f => exact ⟨_, rfl⟩
  | other => exact absurd rfl h

theorem isIgnoredLoop_ok_true_of_mem {T : Type} (u : String) (r : T)
    (l : List (Pattern T)) (hrec : ∀ p ∈ l, p ≠ Pattern.other)
    (p : Pattern T) (hp : p ∈ l) (hm : isSatisfyPattern u r p = .ok true) :
    ∃ n, isIgnoredLoop u r l = .ok (true, n) := by
  induction l with
  | nil => cases hp
  | cons q rest ih =>
    obtain ⟨b, hb⟩ := isSatisfyPattern_recognized u r q (hrec q (by simp))
    cases b with
    | true =>
      exact ⟨1, by simp [isIgnoredLoop, hb]⟩
    | false =>
      rcases List.mem_cons.mp hp with hqp | hrest
      · rw [hqp] at hm
        rw [hm] at hb
        cases hb
      · obtain ⟨n, hn⟩ := ih (fun p hp => hrec p (List.mem_cons_of_mem q hp)) hrest
        exact ⟨n + 1, by simp [isIgnoredLoop, hb, hn]⟩

theorem isIgnoredLoop_mem_of_ok_true {T : Type} (u : String) (r : T)
    (l : List (Pattern T)) (n : Nat) (h : isIgnoredLoop u r l = .ok (true, n)) :
    ∃ p ∈ l, isSatisfyPattern u r p = .ok true := by
  induction l generalizing n with
  | nil => simp [isIgnoredLoop] at h
  | cons q rest ih =>
    rw [isIgnoredLoop] at h
    cases hq : isSatisfyPattern u r q with
    | error e => rw [hq] at h; cases h
    | ok b =>
      rw [hq] at h
      cases b with
      | true => exact ⟨q, by simp, hq⟩
      | false =>
        cases hrest : isIgnoredLoop u r rest with
        | error e => rw [hrest] at h; cases h
        | ok bn =>
          rw [hrest] at h
          obtain ⟨b', n'⟩ := bn
          have hinj : b' = true ∧ n' + 1 = n := by simpa using h
          obtain ⟨p, hp, hm⟩ := ih n' (hinj.1 ▸ hrest)
          exact ⟨p, List.mem_cons_of_mem q hp, hm⟩

theorem isIgnoredLoop_first_match {T : Type} (u : String) (r : T)
    (l : List (Pattern T)) (i : Nat) (p : Pattern T)
    (hi : l[i]? = some p) (hm : isSatisfyPattern u r p = .ok true)
    (hbefore : ∀ j q, j < i → l[j]? = some q → isSatisfyPattern u r q = .ok false) :
    isIgnoredLoop u r l = .ok (true, i + 1) := by
  induction l generalizing i with
  | nil => simp at hi
  | cons q rest ih =>
    cases i with
    | zero =>
      simp at hi
      subst hi
      rw [isIgnoredLoop, hm]
    | succ i =>
      have hq0 : isSatisfyPattern u r q = .ok false :=
        hbefore 0 q (Nat.succ_pos i) (by simp)
      have hrest := ih i (by simpa using hi)
        (fun j q' hj hq' => hbefore (j + 1) q' (Nat.succ_lt_succ hj) (by simpa using hq'))
      rw [isIgnoredLoop, hq0, hrest]

/-! ## Claim theorems -/

/-- C3: the status classifier `convertTraceStatus` is a pure total function
on integer status codes: `[200, 400)` maps to OK, the eight tabulated codes
map to their canonical outcomes, and every code below 200, above 504 or
otherwise unmapped inside `[200, 504]` maps to UNKNOWN. -/
theorem c3_convertTraceStatus_table :
    (∀ c : Int, 200 ≤ c → c < 400 → convertTraceStatus c = TraceStatusCodes.OK)
  ∧ convertTraceStatus 400 = TraceStatusCodes.INVALID_ARGUMENT
  ∧ convertTraceStatus 401 = TraceStatusCodes.UNAUTHENTICATED
  ∧ convertTraceStatus 403 = TraceStatusCodes.PERMISSION_DENIED
  ∧ convertTraceStatus 404 = TraceStatusCodes.NOT_FOUND
  ∧ convertTraceStatus 429 = TraceStatusCodes.RESOURCE_EXHAUSTED
  ∧ convertTraceStatus 501 = TraceStatusCodes.UNIMPLEMENTED
  ∧ convertTraceStatus 503 = TraceStatusCodes.UNAVAILABLE
  ∧ convertTraceStatus 504 = TraceStatusCodes.DEADLINE_EXCEEDED
  ∧ (∀ c : Int, c < 200 ∨ c > 504 → convertTraceStatus c = TraceStatusCodes.UNKNOWN)
  ∧ (∀ c : Int, 200 ≤ c → c ≤ 504 → ¬(200 ≤ c ∧ c < 400) →
      ¬(c = 400 ∨ c = 401 ∨ c = 403 ∨ c = 404 ∨ c = 429 ∨ c = 501 ∨ c = 503 ∨ c = 504) →
      convertTraceStatus c = TraceStatusCodes.UNKNOWN) := by
  refine ⟨?_, by decide, by decide, by decide, by decide, by decide, by decide,
    by decide, by decide, ?_, ?_⟩
  · intro c h1 h2
    simp only [convertTraceStatus, TraceStatusCodes.OK, TraceStatusCodes.UNKNOWN,
      TraceStatusCodes.INVALID_ARGUMENT, TraceStatusCodes.DEADLINE_EXCEEDED,
      TraceStatusCodes.NOT_FOUND, TraceStatusCodes.PERMISSION_DENIED,
      TraceStatusCodes.UNAUTHENTICATED, TraceStatusCodes.RESOURCE_EXHAUSTED,
      TraceStatusCodes.UNIMPLEMENTED, TraceStatusCodes.UNAVAILABLE]
    split_ifs <;> omega
  · intro c h
    simp only [convertTraceStatus, TraceStatusCodes.OK, TraceStatusCodes.UNKNOWN,
      TraceStatusCodes.INVALID_ARGUMENT, TraceStatusCodes.DEADLINE_EXCEEDED,
      TraceStatusCodes.NOT_FOUND, TraceStatusCodes.PERMISSION_DENIED,
      TraceStatusCodes.UNAUTHENTICATED, TraceStatusCodes.RESOURCE_EXHAUSTED,
      TraceStatusCodes.UNIMPLEMENTED, TraceStatusCodes.UNAVAILABLE]
    split_ifs
    omega
  · intro c h1 h2 h3 h4
    simp only [convertTraceStatus, TraceStatusCodes.OK, TraceStatusCodes.UNKNOWN,
      TraceStatusCodes.INVALID_ARGUMENT, TraceStatusCodes.DEADLINE_EXCEEDED,
      TraceStatusCodes.NOT_FOUND, TraceStatusCodes.PERMISSION_DENIED,
      TraceStatusCodes.UNAUTHENTICATED, TraceStatusCodes.RESOURCE_EXHAUSTED,
      TraceStatusCodes.UNIMPLEMENTED, TraceStatusCodes.UNAVAILABLE]
    split_ifs <;> omega

/-- Witness for C3 at concrete inputs: 204 is in the OK band, 100 is below
the range, 451 is in range but unmapped. -/
theorem c3_convertTraceStatus_table_witness :
    convertTraceStatus 204 = TraceStatusCodes.OK
  ∧ convertTraceStatus 100 = TraceStatusCodes.UNKNOWN
  ∧ convertTraceStatus 451 = TraceStatusCodes.UNKNOWN := by
  obtain ⟨h1, _, _, _, _, _, _, _, _, h10, h11⟩ := c3_convertTraceStatus_table
  exact ⟨h1 204 (by decide) (by decide), h10 100 (Or.inl (by decide)),
    h11 451 (by decide) (by decide) (by decide) (by decide)⟩

/-- C4: `isIgnored` returns `false` for an absent or empty rule list,
returns `true` exactly when some rule in the list matches (for lists of
recognized rule kinds), and evaluates rules only up to and including the
first match (the instrumented loop reports `i + 1` evaluations when the
first match sits at index `i`). -/
theorem c4_isIgnored_first_match {T : Type} (u : String) (r : T) :
    isIgnored u r (none : Option (List (Pattern T))) = .ok false
  ∧ isIgnored u r (some ([] : List (Pattern T))) = .ok false
  ∧ (∀ l : List (Pattern T), (∀ p ∈ l, p ≠ Pattern.other) →
      (isIgnored u r (some l) = .ok true ↔ ∃ p ∈ l, isSatisfyPattern u r p = .ok true))
  ∧ (∀ (l : List (Pattern T)) (i : Nat) (p : Pattern T),
      l[i]? = some p → isSatisfyPattern u r p = .ok true →
      (∀ j q, j < i → l[j]? = some q → isSatisfyPattern u r q = .ok false) →
      isIgnoredLoop u r l = .ok (true, i + 1)) := by
  refine ⟨rfl, rfl, ?_, isIgnoredLoop_first_match u r⟩
  intro l hrec
  constructor
  · intro h
    rw [isIgnored] at h
    cases hl : isIgnoredLoop u r l with
    | error e => rw [hl] at h; cases h
    | ok bn =>
      rw [hl] at h
      obtain ⟨b, n⟩ := bn
      simp at h
      exact isIgnoredLoop_mem_of_ok_true u r l n (h ▸ hl)
  · rintro ⟨p, hp, hm⟩
    obtain ⟨n, hn⟩ := isIgnoredLoop_ok_true_of_mem u r l hrec p hp hm
    rw [isIgnored, hn]

/-- Witness for C4: a three-rule list whose second rule is the first match;
`isIgnored` answers `true` and the loop performs exactly two evaluations. -/
theorem c4_isIgnored_first_match_witness :
    isIgnored "a" () (some [Pattern.str "b", Pattern.str "a", Pattern.str "c"]) = .ok true
  ∧ isIgnoredLoop "a" () [Pattern.str "b", Pattern.str "a", Pattern.str "c"] = .ok (true, 2) := by
  obtain ⟨_, _, h3, h4⟩ := c4_isIgnored_first_match "a" ()
  constructor
  · exact (h3 [Pattern.str "b", Pattern.str "a", Pattern.str "c"]
      (by intro p hp; fin_cases hp <;> simp)).mpr
      ⟨Pattern.str "a", by simp, by rfl⟩
  · refine h4 [Pattern.str "b", Pattern.str "a", Pattern.str "c"] 1 (Pattern.str "a")
      rfl rfl ?_
    intro j q hj hq
    cases j with
    | zero =>
      simp at hq
      subst hq
      simp [isSatisfyPattern]
    | succ j => omega

/-- C7: an ignore rule of unrecognized runtime kind makes
`isSatisfyPattern` throw `TypeError('Pattern is in unsupported datatype')`,
and `isIgnored` propagates that error (whenever evaluation reaches the
bad rule) instead of returning a boolean. -/
theorem c7_unsupported_pattern_throws {T : Type} (u : String) (r : T) :
    isSatisfyPattern u r (Pattern.other : Pattern T) =
      .error ⟨"Pattern is in unsupported datatype"⟩
  ∧ (∀ pre rest : List (Pattern T),
      (∀ p ∈ pre, isSatisfyPattern u r p = .ok false) →
      isIgnored u r (some (pre ++ Pattern.other :: rest)) =
        .error ⟨"Pattern is in unsupported datatype"⟩) := by
  refine ⟨rfl, ?_⟩
  intro pre rest hpre
  have hloop : ∀ pre : List (Pattern T), (∀ p ∈ pre, isSatisfyPattern u r p = .ok false) →
      isIgnoredLoop u r (pre ++ Pattern.other :: rest) =
        .error ⟨"Pattern is in unsupported datatype"⟩ := by
    intro pre hpre
    induction pre with
    | nil => rfl
    | cons q t ih =>
      have hq : isSatisfyPattern u r q = .ok false := hpre q (by simp)
      have ht := ih (fun p hp => hpre p (List.mem_cons_of_mem q hp))
      rw [List.cons_append, isIgnoredLoop, hq, ht]
  rw [isIgnored, hloop pre hpre]

/-- Witness for C7: a list whose first rule does not match and whose second
is of unrecognized kind; `isIgnored` reports the `TypeError`. -/
theorem c7_unsupported_pattern_throws_witness :
    isIgnored "a" () (some [Pattern.str "b", Pattern.other]) =
      .error ⟨"Pattern is in unsupported datatype"⟩ := by
  refine (c7_unsupported_pattern_throws "a" ()).2 [Pattern.str "b"] [] ?_
  intro p hp
  simp at hp
  rw [hp]
  rfl

theorem kindStr_toLower (moduleName : String)
    (h : moduleName = "http" ∨ moduleName = "https") :
    jsToLowerCase (if moduleName = "https" then "HTTPS" else "HTTP") = moduleName := by
  rcases h with h | h <;> subst h <;> rfl

theorem outgoingAfterMeta_not_ignored {ρ : Type} (moduleName : String)
    (cfg : Option (List (Pattern ρ))) (tracer : Tracer) (request : ρ)
    (method pathname origin : String)
    (hign : isIgnored (origin ++ pathname) request cfg = .ok false) :
    outgoingAfterMeta moduleName cfg tracer request method pathname origin =
      .ok ⟨request,
           some ⟨tracer.currentRootSpan.isNone,
                 jsToLowerCase (if moduleName = "https" then "HTTPS" else "HTTP")
                   ++ "-" ++ jsToLowerCase (jsOrS method "GET"),
                 SpanKind.CLIENT,
                 some (tracer.currentRootSpan.getD tracer.freshTraceId)⟩,
           true⟩ := by
  rw [outgoingAfterMeta, hign]
  cases hcur : tracer.currentRootSpan <;> rfl

/-- C1 (code defect, evaluated at the failing input): an armed outbound
span that receives the response `end` signal (a successful 200 response)
followed by a response `error` signal has `end()` called twice, and the
error handler writes two further attributes after the first `end()` — the
handlers of lines 397-442 carry no already-ended guard.  The claim's
exactly-once property fails on this sequence. -/
theorem c1_double_end_on_error_after_success :
    (deliverAll ⟨none, some "example.com", none, some "/x"⟩ initSpanLog
      [Signal.responseEnd ⟨some "GET", some 200⟩]).endCount = 1
  ∧ (deliverAll ⟨none, some "example.com", none, some "/x"⟩ initSpanLog
      [Signal.responseEnd ⟨some "GET", some 200⟩,
       Signal.responseError ⟨"Error", "socket hang up"⟩]).endCount = 2
  ∧ (deliverAll ⟨none, some "example.com", none, some "/x"⟩ initSpanLog
      [Signal.responseEnd ⟨some "GET", some 200⟩,
       Signal.responseError ⟨"Error", "socket hang up"⟩]).attrs =
      (deliverAll ⟨none, some "example.com", none, some "/x"⟩ initSpanLog
        [Signal.responseEnd ⟨some "GET", some 200⟩]).attrs
        ++ [("http.error_name", "Error"), ("http.error_message", "socket hang up")] :=
  ⟨rfl, rfl, rfl⟩

/-- C2: a non-ignored outbound operation starts exactly one CLIENT span,
a root span exactly when `currentRootSpan` is absent (receiving a fresh
trace id) and otherwise a child span carrying the current root's trace id
(`Option.getD` selects the root's id when present, the fresh id otherwise);
the span name is the lower-cased module protocol, a dash, and the
lower-cased method (which defaults to GET — for url-string options the
method is always GET). -/
theorem c2_outgoing_root_child {ρ : Type} (moduleName : String)
    (parse : String → ParsedUrl) (cfg : Option (List (Pattern ρ)))
    (tracer : Tracer) (original : Option OptionsVal → ρ)
    (hmod : moduleName = "http" ∨ moduleName = "https") :
    (∀ s : String, s ≠ "" →
      isIgnored (jsOr (parse s).protocol "http:" ++ "//" ++ jsTemplate (parse s).host
          ++ jsOr (parse s).pathname "/") (original (some (OptionsVal.str s))) cfg = .ok false →
      outgoingRequest moduleName parse cfg tracer original (some (OptionsVal.str s)) =
        .ok ⟨original (some (OptionsVal.str s)),
             some ⟨tracer.currentRootSpan.isNone,
                   moduleName ++ "-" ++ "get",
                   SpanKind.CLIENT,
                   some (tracer.currentRootSpan.getD tracer.freshTraceId)⟩,
             true⟩)
  ∧ (∀ (o : ReqObj) (pathname method origin : String),
      markerTruthy o.headers = false →
      tryComputeMeta parse o = .ok (pathname, method, origin) →
      isIgnored (origin ++ pathname) (original (some (OptionsVal.obj o))) cfg = .ok false →
      outgoingRequest moduleName parse cfg tracer original (some (OptionsVal.obj o)) =
        .ok ⟨original (some (OptionsVal.obj o)),
             some ⟨tracer.currentRootSpan.isNone,
                   moduleName ++ "-" ++ jsToLowerCase (jsOrS method "GET"),
                   SpanKind.CLIENT,
                   some (tracer.currentRootSpan.getD tracer.freshTraceId)⟩,
             true⟩) := by
  constructor
  · intro s hs hign
    have hmain := outgoingAfterMeta_not_ignored moduleName cfg tracer
      (original (some (OptionsVal.str s))) "GET" (jsOr (parse s).pathname "/")
      (jsOr (parse s).protocol "http:" ++ "//" ++ jsTemplate (parse s).host) hign
    rw [kindStr_toLower moduleName hmod] at hmain
    rw [outgoingRequest, if_neg (by simp [jsFalsyOptions, hs])]
    exact hmain
  · intro o pathname method origin hmk hmeta hign
    have hmain := outgoingAfterMeta_not_ignored moduleName cfg tracer
      (original (some (OptionsVal.obj o))) method pathname origin hign
    rw [kindStr_toLower moduleName hmod] at hmain
    rw [outgoingRequest, if_neg (by simp [jsFalsyOptions])]
    show (if markerTruthy o.headers = true then _ else _) = _
    rw [hmk, if_neg Bool.false_ne_true, hmeta]
    exact hmain

/-- Witness for C2 at concrete inputs: a url-string request with no current
root span starts a root CLIENT span named `http-get` carrying the fresh
trace id 7. -/
theorem c2_outgoing_root_child_witness :
    outgoingRequest "http" (fun _ => ParsedUrl.mk none none none none)
      (none : Option (List (Pattern Nat))) ⟨none, 7⟩ (fun _ => 0)
      (some (OptionsVal.str "example.com/x")) =
      .ok ⟨0, some ⟨true, "http" ++ "-" ++ "get", SpanKind.CLIENT, some 7⟩, true⟩ :=
  (c2_outgoing_root_child "http" (fun _ => ParsedUrl.mk none none none none)
    none ⟨none, 7⟩ (fun _ => 0) (Or.inl rfl)).1 "example.com/x" (by decide) rfl

/-- C5 (amended): an outbound operation whose headers carry the loopback
marker `x-opencensus-outgoing-request` with a truthy (non-empty) value is
passed straight to the original request function with its arguments
unmodified; no span is started and `isIgnored` is never invoked. -/
theorem c5_loopback_skip {ρ : Type} (moduleName : String)
    (parse : String → ParsedUrl) (cfg : Option (List (Pattern ρ)))
    (tracer : Tracer) (original : Option OptionsVal → ρ) (o : ReqObj)
    (h : markerTruthy o.headers = true) :
    outgoingRequest moduleName parse cfg tracer original (some (OptionsVal.obj o)) =
      .ok ⟨original (some (OptionsVal.obj o)), none, false⟩ := by
  rw [outgoingRequest, if_neg (by simp [jsFalsyOptions])]
  show (if markerTruthy o.headers = true then _ else _) = _
  rw [h, if_pos rfl]

/-- Witness for C5 (amended): marker header value `"true"`. -/
theorem c5_loopback_skip_witness :
    outgoingRequest "http" (fun _ => ParsedUrl.mk none none none none)
      (none : Option (List (Pattern Nat))) ⟨none, 0⟩ (fun _ => 0)
      (some (OptionsVal.obj ⟨some [("x-opencensus-outgoing-request", "true")],
        .ok (some "/p"), .ok none, .ok none, .ok none, .ok (some "h")⟩)) =
      .ok ⟨0, none, false⟩ :=
  c5_loopback_skip "http" (fun _ => ParsedUrl.mk none none none none)
    none ⟨none, 0⟩ (fun _ => 0) _ rfl

/-- C5 counterexample to the claim as stated: the headers *contain* the
marker key, but with the (falsy) empty-string value; line 296's truthiness
check does not fire, so the operation is matched against the ignore list
(`matcherConsulted = true`) and a span is started — contradicting "never
starts a span and never evaluates the ignore-rule list". -/
theorem c5_loopback_skip_counterexample :
    outgoingRequest "http" (fun _ => ParsedUrl.mk none none none none)
      (none : Option (List (Pattern Nat))) ⟨none, 5⟩ (fun _ => 0)
      (some (OptionsVal.obj ⟨some [("x-opencensus-outgoing-request", "")],
        .ok (some "/p"), .ok none, .ok none, .ok none, .ok (some "h")⟩)) =
      .ok ⟨0, some ⟨true, "http-get", SpanKind.CLIENT, some 5⟩, true⟩ := rfl

/-- C6 counterexample to the claim as stated: the outbound path
(lines 325-346) never consults `createSpanWithNet` — the flag is not even
an input of `outgoingRequest` in this embedding because the source reads
no configuration there — so with the flag set a traced outbound operation
with no current root still starts a ROOT span, contradicting "never a root
span". -/
theorem c6_counterexample_outbound_root :
    outgoingRequest "http" (fun _ => ParsedUrl.mk none none none none)
      (none : Option (List (Pattern Nat))) ⟨none, 5⟩ (fun _ => 0)
      (some (OptionsVal.obj ⟨none, .ok (some "/p"), .ok none, .ok none,
        .ok none, .ok (some "h")⟩)) =
      .ok ⟨0, some ⟨true, "http-get", SpanKind.CLIENT, some 5⟩, true⟩ := rfl

/-- C6 (amended): with `createSpanWithNet = true`, every traced *inbound*
operation produces a child span and never a root span (`createSpan` always
takes the `startChildSpan` branch); outbound operations are unaffected by
the flag. -/
theorem c6_amended_inbound_child {T : Type} (tracer : Tracer)
    (list : Option (List (Pattern T))) (path : String) (request : T)
    (ctx : Option Nat) (h : isIgnored path request list = .ok false) :
    (∀ options : TraceOpts, (createSpan true tracer options).isRoot = false)
  ∧ incomingRequest true tracer list "request" path request ctx =
      .ok (some ⟨false, path, SpanKind.SERVER, tracer.currentRootSpan⟩) := by
  constructor
  · intro options
    rfl
  · rw [incomingRequest, if_neg (by simp)]
    rw [h]
    rfl

/-- Witness for C6 (amended): a non-ignored inbound request while root 3 is
current yields a child SERVER span. -/
theorem c6_amended_inbound_child_witness :
    incomingRequest true ⟨some 3, 9⟩ (none : Option (List (Pattern Nat)))
      "request" "/a" 0 none =
      .ok (some ⟨false, "/a", SpanKind.SERVER, some 3⟩) :=
  (c6_amended_inbound_child ⟨some 3, 9⟩ none "/a" 0 none rfl).2

/-- C10: an outbound interception with an absent or falsy `options`
argument, or whose non-string `options` object throws while its url fields
are read, returns the original function's result on the unmodified
arguments, starts no span and consults no ignore rule. -/
theorem c10_passthrough_on_bad_options {ρ : Type} (moduleName : String)
    (parse : String → ParsedUrl) (cfg : Option (List (Pattern ρ)))
    (tracer : Tracer) (original : Option OptionsVal → ρ) :
    outgoingRequest moduleName parse cfg tracer original none =
      .ok ⟨original none, none, false⟩
  ∧ outgoingRequest moduleName parse cfg tracer original (some (OptionsVal.str "")) =
      .ok ⟨original (some (OptionsVal.str "")), none, false⟩
  ∧ (∀ o : ReqObj, tryComputeMeta parse o = .error () →
      outgoingRequest moduleName parse cfg tracer original (some (OptionsVal.obj o)) =
        .ok ⟨original (some (OptionsVal.obj o)), none, false⟩) := by
  refine ⟨rfl, rfl, ?_⟩
  intro o ho
  rw [outgoingRequest, if_neg (by simp [jsFalsyOptions])]
  show (if markerTruthy o.headers = true then _ else _) = _
  cases hm : markerTruthy o.headers with
  | true => rw [if_pos rfl]
  | false =>
    rw [if_neg Bool.false_ne_true, ho]

/-- Witness for C10: an options object whose `pathname` getter throws. -/
theorem c10_passthrough_on_bad_options_witness :
    outgoingRequest "http" (fun _ => ParsedUrl.mk none none none none)
      (none : Option (List (Pattern Nat))) ⟨none, 0⟩ (fun _ => 0)
      (some (OptionsVal.obj ⟨none, .error (), .ok none, .ok none, .ok none,
        .ok none⟩)) =
      .ok ⟨0, none, false⟩ :=
  (c10_passthrough_on_bad_options "http" (fun _ => ParsedUrl.mk none none none none)
    none ⟨none, 0⟩ (fun _ => 0)).2.2 _ rfl

theorem lookup_map_set_ne (name value h : String) (hne : h ≠ name)
    (t : List (String × String)) :
    (t.map (fun kv => if kv.1 = name then (name, value) else kv)).lookup h =
      t.lookup h := by
  induction t with
  | nil => rfl
  | cons kv t ih =>
    obtain ⟨k, v⟩ := kv
    by_cases hk : k = name
    · subst hk
      rw [List.map_cons, if_pos rfl]
      simp only [List.lookup]
      rw [show (h == k) = false from beq_eq_false_iff_ne.mpr hne]
      exact ih
    · rw [List.map_cons, if_neg hk]
      simp only [List.lookup]
      cases hhk : h == k
      · exact ih
      · rfl

theorem lookup_append_single_ne (name value h : String) (hne : h ≠ name)
    (t : List (String × String)) :
    (t ++ [(name, value)]).lookup h = t.lookup h := by
  induction t with
  | nil =>
    simp only [List.nil_append, List.lookup]
    rw [show (h == name) = false from beq_eq_false_iff_ne.mpr hne]
  | cons kv t ih =>
    obtain ⟨k, v⟩ := kv
    simp only [List.cons_append, List.lookup]
    cases hhk : h == k
    · exact ih
    · rfl

theorem lookup_assocSet_ne (l : List (String × String)) (name value h : String)
    (hne : h ≠ name) : (assocSet l name value).lookup h = l.lookup h := by
  rw [assocSet]
  split_ifs
  · exact lookup_map_set_ne name value h hne l
  · exact lookup_append_single_ne name value h hne l

theorem setHeaderAll_expect_full (writes : List (String × String)) :
    ∀ (hs req0 : List (String × String)) (cc : Nat),
    jsTruthy (hs.lookup "Expect") = true →
    (∀ w ∈ writes, w.1 ≠ "Expect") →
    setHeaderAll ⟨⟨some hs, true⟩, req0, cc⟩ writes =
      ⟨⟨some (writes.foldl (fun h w => assocSet h w.1 w.2) hs), true⟩, req0, cc⟩ := by
  induction writes with
  | nil => intro hs req0 cc _ _; rfl
  | cons w rest ih =>
    intro hs req0 cc hT hw
    have hguard : (hasExpectHeader (SetterState.mk ⟨some hs, true⟩ req0 cc).options
        && (SetterState.mk ⟨some hs, true⟩ req0 cc).options.headers.isSome) = true := by
      rw [show hasExpectHeader ⟨some hs, true⟩ = true from hT]
      rfl
    have hstep : setHeaderImpl ⟨⟨some hs, true⟩, req0, cc⟩ w.1 w.2 =
        ⟨⟨some (assocSet hs w.1 w.2), true⟩, req0, cc⟩ := by
      rw [setHeaderImpl, if_pos hguard]
      rfl
    have hT' : jsTruthy ((assocSet hs w.1 w.2).lookup "Expect") = true := by
      rw [lookup_assocSet_ne hs w.1 w.2 "Expect" (Ne.symm (hw w (by simp)))]
      exact hT
    have hfold : setHeaderAll ⟨⟨some hs, true⟩, req0, cc⟩ (w :: rest) =
        setHeaderAll (setHeaderImpl ⟨⟨some hs, true⟩, req0, cc⟩ w.1 w.2) rest := rfl
    rw [hfold, hstep,
      ih (assocSet hs w.1 w.2) req0 cc hT' (fun p hp => hw p (List.mem_cons_of_mem w hp))]
    rfl

theorem setHeaderAll_noexpect (opts : MutOptions)
    (hE : hasExpectHeader opts = false) :
    ∀ (writes : List (String × String)) (req0 : List (String × String)) (cc : Nat),
    setHeaderAll ⟨opts, req0, cc⟩ writes =
      ⟨opts, writes.foldl (fun h w => assocSet h w.1 w.2) req0, cc⟩ := by
  intro writes
  induction writes with
  | nil => intro req0 cc; rfl
  | cons w rest ih =>
    intro req0 cc
    have hstep : setHeaderImpl ⟨opts, req0, cc⟩ w.1 w.2 =
        ⟨opts, assocSet req0 w.1 w.2, cc⟩ := by
      rw [setHeaderImpl]
      rw [if_neg]
      rw [hE]
      simp
    have hfold : setHeaderAll ⟨opts, req0, cc⟩ (w :: rest) =
        setHeaderAll (setHeaderImpl ⟨opts, req0, cc⟩ w.1 w.2) rest := rfl
    rw [hfold, hstep, ih]
    rfl

/-- C8 (amended): when the captured call options (headers map `hs`, not yet
cloned) carry an `Expect` header with a truthy (non-empty) value, the live
request's headers are never touched, every trace-context header write lands
in the (cloned) options object's headers map — the final map is exactly the
original map with all writes applied in order — and the clone happens at
most once across all writes (exactly once as soon as one write occurs,
leaving the `__cloned` mark set); when no truthy `Expect` header is
present, all writes go through the live request's `setHeader` and the
options object is left unchanged. -/
theorem c8_expect_clone (opts : MutOptions) (req0 : List (String × String))
    (writes : List (String × String)) :
    (∀ hs : List (String × String), opts = MutOptions.mk (some hs) false →
      hasExpectHeader opts = true →
      (∀ w ∈ writes, w.1 ≠ "Expect") →
      (setHeaderAll ⟨opts, req0, 0⟩ writes).requestHeaders = req0
      ∧ (setHeaderAll ⟨opts, req0, 0⟩ writes).options.headers =
          some (writes.foldl (fun h w => assocSet h w.1 w.2) hs)
      ∧ (setHeaderAll ⟨opts, req0, 0⟩ writes).cloneCount ≤ 1
      ∧ (writes ≠ [] →
          (setHeaderAll ⟨opts, req0, 0⟩ writes).cloneCount = 1
          ∧ (setHeaderAll ⟨opts, req0, 0⟩ writes).options.cloned = true))
  ∧ (hasExpectHeader opts = false →
      (setHeaderAll ⟨opts, req0, 0⟩ writes).options = opts
      ∧ (setHeaderAll ⟨opts, req0, 0⟩ writes).requestHeaders =
          writes.foldl (fun h w => assocSet h w.1 w.2) req0) := by
  constructor
  · intro hs hopts hE hw
    subst hopts
    cases writes with
    | nil => exact ⟨rfl, rfl, Nat.zero_le 1, fun hne => absurd rfl hne⟩
    | cons w rest =>
      have hT : jsTruthy (hs.lookup "Expect") = true := hE
      have hguard : (hasExpectHeader (SetterState.mk ⟨some hs, false⟩ req0 0).options
          && (SetterState.mk ⟨some hs, false⟩ req0 0).options.headers.isSome) = true := by
        rw [show hasExpectHeader ⟨some hs, false⟩ = true from hT]
        rfl
      have hstep : setHeaderImpl ⟨⟨some hs, false⟩, req0, 0⟩ w.1 w.2 =
          ⟨⟨some (assocSet hs w.1 w.2), true⟩, req0, 1⟩ := by
        rw [setHeaderImpl, if_pos hguard]
        rfl
      have hT' : jsTruthy ((assocSet hs w.1 w.2).lookup "Expect") = true := by
        rw [lookup_assocSet_ne hs w.1 w.2 "Expect" (Ne.symm (hw w (by simp)))]
        exact hT
      have hfold : setHeaderAll ⟨⟨some hs, false⟩, req0, 0⟩ (w :: rest) =
          setHeaderAll (setHeaderImpl ⟨⟨some hs, false⟩, req0, 0⟩ w.1 w.2) rest := rfl
      rw [hfold, hstep, setHeaderAll_expect_full rest (assocSet hs w.1 w.2) req0 1 hT'
        (fun p hp => hw p (List.mem_cons_of_mem w hp))]
      exact ⟨rfl, rfl, Nat.le_refl 1, fun _ => ⟨rfl, rfl⟩⟩
  · intro hE
    rw [setHeaderAll_noexpect opts hE writes req0 0]
    exact ⟨rfl, rfl⟩

/-- Witness for C8 (amended): options carrying `Expect: 100-continue`;
after one trace-header write the live request is untouched, the write
landed in the cloned options' headers map (appended after the `Expect`
entry), the clone happened exactly once and the clone carries the mark. -/
theorem c8_expect_clone_witness :
    (setHeaderAll ⟨⟨some [("Expect", "100-continue")], false⟩, [], 0⟩
        [("x-b3-traceid", "abc")]).requestHeaders = []
  ∧ (setHeaderAll ⟨⟨some [("Expect", "100-continue")], false⟩, [], 0⟩
        [("x-b3-traceid", "abc")]).options.headers =
      some [("Expect", "100-continue"), ("x-b3-traceid", "abc")]
  ∧ (setHeaderAll ⟨⟨some [("Expect", "100-continue")], false⟩, [], 0⟩
        [("x-b3-traceid", "abc")]).cloneCount = 1
  ∧ (setHeaderAll ⟨⟨some [("Expect", "100-continue")], false⟩, [], 0⟩
        [("x-b3-traceid", "abc")]).options.cloned = true := by
  have h := (c8_expect_clone ⟨some [("Expect", "100-continue")], false⟩ []
    [("x-b3-traceid", "abc")]).1 [("Expect", "100-continue")] rfl rfl (by decide)
  exact ⟨h.1, h.2.1, (h.2.2.2 (by simp)).1, (h.2.2.2 (by simp)).2⟩

/-- C8 counterexample to the claim as stated: the options *carry* an
`Expect` header, but with the (falsy) empty-string value;
`hasExpectHeader` (line 497's truthiness) is false, so the trace-context
header is written via `setHeader` on the live request — contradicting
"never via setHeader on the live request". -/
theorem c8_expect_clone_counterexample :
    setHeaderAll ⟨⟨some [("Expect", "")], false⟩, [], 0⟩
      [("x-b3-traceid", "abc")] =
      ⟨⟨some [("Expect", "")], false⟩, [("x-b3-traceid", "abc")], 0⟩ := rfl

theorem join_cons (a : String) (l : List String) :
    String.join (a :: l) = a ++ String.join l := by
  apply String.ext
  simp [String.join_eq]

/-- C9: the `http.route` attribute of a traced inbound operation is the raw
path when no middleware path stack is attached, and otherwise the in-order
concatenation of the stack's segments different from `'/'`, each prefixed
with `'/'` when its first character is not already `'/'` — stated by the
spec-shaped recursion `routeFromStackSpec` and proved equal to the source's
filter/map/join pipeline. -/
theorem c9_route_resolution (rawPath : String) :
    resolveRoute rawPath none = rawPath
  ∧ ∀ stack : List String,
      resolveRoute rawPath (some stack) = routeFromStackSpec stack := by
  refine ⟨rfl, ?_⟩
  intro stack
  induction stack with
  | nil => rfl
  | cons p rest ih =>
    rw [resolveRoute] at ih
    rw [resolveRoute, routeFromStackSpec]
    by_cases hp : p = "/"
    · rw [if_pos hp]
      have hfilter : (p :: rest).filter (fun q => q != "/") =
          rest.filter (fun q => q != "/") := by
        simp [List.filter, hp]
      rw [hfilter, ih]
      simp
    · rw [if_neg hp]
      have hb : (p != "/") = true := bne_iff_ne.mpr hp
      have hfilter : (p :: rest).filter (fun q => q != "/") =
          p :: rest.filter (fun q => q != "/") := by
        simp [List.filter, hb]
      rw [hfilter, List.map_cons, join_cons, ih]

